import Mathlib

/-!
Verification development for the resume-builder repository.

The embedding below translates the two algorithmic cores of the program:

* `src/builder.js` — the generate → validate → retry orchestration
  (`validateContent`, `generateTailoredResume`, `generateCoverLetter`,
  `generateJobSummary`, `main`), modelled as pure functions over a stream
  of service responses (`Nat → Resp`).  The generative-text service is an
  external collaborator, so each outbound call consumes the next response
  of the stream; a transport/service failure is `Resp.err`.
* `src/lib/pdf-converter.js` — the Markdown-subset line renderer and the
  footer-stamping second pass, modelled with explicit geometry in ℚ and an
  abstract `PdfMeasure` for the pdfkit text-measurement primitives
  (`heightOfString`, `currentLineHeight`, y-advance of a text write).

JavaScript string primitives used by the source (`trim`, `startsWith`,
`split`, global `replace`, …) are re-implemented structurally over
`List Char` so that every definition evaluates by kernel reduction on
concrete inputs.
-/

/-! ## JavaScript string primitives (structural re-implementations) -/

/-- JS whitespace test restricted to the characters that occur in this
program's data (space, tab, newline, carriage return). -/
def wsChar (c : Char) : Bool :=
  c == ' ' || c == '\t' || c == '\n' || c == '\r'

/-- Drop leading whitespace characters (the `\s*` part of the regexes). -/
def dropWsL : List Char → List Char
  | [] => []
  | c :: cs => if wsChar c then dropWsL cs else c :: cs

/-- JS `String.prototype.trim`. -/
def jsTrim (s : String) : String :=
  String.mk ((dropWsL ((dropWsL s.data).reverse)).reverse)

/-- `p` occurs at the head of `cs` (list form of JS `startsWith`). -/
def leadsWithL : List Char → List Char → Bool
  | [], _ => true
  | _ :: _, [] => false
  | p :: ps, c :: cs => p == c && leadsWithL ps cs

/-- JS `String.prototype.startsWith`. -/
def jsStartsWith (s pat : String) : Bool :=
  leadsWithL pat.data s.data

/-- JS `String.prototype.split` on a single separator character. -/
def splitOnCharAux (sep : Char) (acc : List Char) : List Char → List String
  | [] => [String.mk acc.reverse]
  | c :: cs =>
      if c == sep then String.mk acc.reverse :: splitOnCharAux sep [] cs
      else splitOnCharAux sep (c :: acc) cs

/-- JS `array.join('\n')`. -/
def joinNl : List String → String
  | [] => ""
  | [s] => s
  | s :: rest => s ++ "\n" ++ joinNl rest

/-- Global (`/g`) string replacement, scanning left to right without
overlap, as JS `String.prototype.replace` with a global literal pattern.
The fuel is the input length; every step consumes at least one character
for the non-empty patterns used by the program. -/
def replAux (pat rep : List Char) : Nat → List Char → List Char
  | 0, rest => rest
  | _ + 1, [] => []
  | fuel + 1, c :: rest =>
      if leadsWithL pat (c :: rest) then
        rep ++ replAux pat rep fuel ((c :: rest).drop pat.length)
      else
        c :: replAux pat rep fuel rest

/-- JS `s.replace(pattern, replacement)` with a global literal pattern. -/
def jsReplaceAll (s pat rep : String) : String :=
  String.mk (replAux pat.data rep.data s.data.length s.data)

/-- JS `String.prototype.length` (code points; the program's data is ASCII). -/
def jsLen (s : String) : Nat := s.data.length

/-! ## builder.js — text post-processing helpers -/

/-- `wrapText`'s inner loop for one line (src/builder.js lines 493-511):
lines longer than `width` are re-flowed greedily at single spaces. -/
def wrapLine (width : Nat) (line : String) : String :=
  if jsLen line ≤ width then line
  else
    let words := splitOnCharAux ' ' [] line.data
    let folded := words.foldl
      (fun (acc : String × String) word =>
        if jsLen acc.2 + jsLen word + 1 ≤ width then
          (acc.1, acc.2 ++ (if acc.2 == "" then "" else " ") ++ word)
        else
          (acc.1 ++ (if acc.1 == "" then "" else "\n") ++ acc.2, word))
      ("", "")
    folded.1 ++ (if folded.1 == "" then "" else "\n") ++ folded.2

/-- `wrapText` (src/builder.js lines 492-512); the program always uses the
default width 80. -/
def wrapText (text : String) (width : Nat) : String :=
  joinNl ((splitOnCharAux '\n' [] text.data).map (wrapLine width))

/-- The comment-line removal `/^\s*\/\/.*$/gm → ''` used on cover-letter
and job-summary responses: a line whose leading whitespace is followed by
`//` is replaced by an empty line. -/
def removeCommentLines (s : String) : String :=
  joinNl ((splitOnCharAux '\n' [] s.data).map
    (fun line => if leadsWithL "//".data (dropWsL line.data) then "" else line))

/-- The cover-letter / job-summary response cleanup
(src/builder.js lines 626-632 and 774-780): trim, strip
code-fence markers, drop comment-like lines, trim again. -/
def cleanContent (raw : String) : String :=
  jsTrim (removeCommentLines (jsReplaceAll (jsReplaceAll (jsTrim raw) "```markdown" "") "```" ""))

/-! ## builder.js — service responses and the validator -/

/-- One response of the generative-text service: either the extracted
`choices[0].message.content` text, or a transport/service error
(network failure, non-2xx, malformed response body). -/
inductive Resp where
  | ok (text : String)
  | err (msg : String)
deriving DecidableEq

/-- `validateContent` (src/builder.js lines 119-205), restricted to its
observable behaviour given the validation-service response: the response
text is trimmed; if it starts with `"VALID"` the function returns `true`,
otherwise it throws an error carrying the whole trimmed response text.
An error of the validation call itself is rethrown unchanged. -/
def validateContent : Resp → Except String Bool
  | .err m => .error m
  | .ok text =>
      let validationResult := jsTrim text
      if jsStartsWith validationResult "VALID" then .ok true
      else .error validationResult

/-- The accumulator entry extraction
`validationError.message.replace(/^INVALID:\s*/, '')`
(src/builder.js lines 327 and 643). -/
def removeInvalidLabel (s : String) : String :=
  if jsStartsWith s "INVALID:" then String.mk (dropWsL (s.data.drop 8)) else s

/-! ## builder.js — the retry loops

Each loop iteration consumes one generation response and, when the
generation call succeeded, one validation response.  The loops return the
terminal result, the next unconsumed stream index, and — as the observable
needed by the accumulator claims — the list of `previousValidationErrors`
snapshots embedded in each attempt's prompt (one entry per attempt made,
in order). -/

/-- The `while (attempt < maxAttempts)` loop of `generateTailoredResume`
(src/builder.js lines 208-347).  The first argument of the recursion is
the number of remaining attempts; the source fixes `maxAttempts = 3`.
A generation-call error is caught by the outer `catch`: it records
`lastError` and retries WITHOUT touching `previousValidationErrors`.
A validation error is caught by the inner `catch`: its message, with a
leading `INVALID:` label stripped, is appended to
`previousValidationErrors`; on the final attempt the rethrow also reaches
the outer `catch` and becomes `lastError`.  After the loop, the terminal
error names the last recorded error. -/
def gtrLoop (resp : Nat → Resp) :
    Nat → Nat → List String → Option String →
    Except String String × Nat × List (List String)
  | 0, k, _, lastError =>
      (.error ("Failed to generate valid resume after 3 attempts. Last error: "
        ++ lastError.getD ""), k, [])
  | r + 1, k, errs, lastError =>
      match resp k with
      | .err m =>
          let next := gtrLoop resp r (k + 1) errs (some m)
          (next.1, next.2.1, errs :: next.2.2)
      | .ok text =>
          let generatedResume := jsTrim text
          match validateContent (resp (k + 1)) with
          | .ok _ => (.ok generatedResume, k + 2, [errs])
          | .error vmsg =>
              let errs2 := errs ++ [removeInvalidLabel vmsg]
              let last2 := if r = 0 then some vmsg else lastError
              let next := gtrLoop resp r (k + 2) errs2 last2
              (next.1, next.2.1, errs :: next.2.2)

/-- `generateTailoredResume` (src/builder.js lines 208-347): three
attempts, fresh empty accumulator, no prior error.  The resume response
is only trimmed (line 318) before validation and return. -/
def generateTailoredResume (resp : Nat → Resp) (k : Nat) :
    Except String String × Nat × List (List String) :=
  gtrLoop resp 3 k [] none

/-- The `while` loop of `generateCoverLetter`
(src/builder.js lines 515-663); identical control flow to `gtrLoop`, but
the response is cleaned of code fences and comment lines and wrapped at
80 columns (lines 626-634) before being validated and returned. -/
def gclLoop (resp : Nat → Resp) :
    Nat → Nat → List String → Option String →
    Except String String × Nat × List (List String)
  | 0, k, _, lastError =>
      (.error ("Failed to generate valid cover letter after 3 attempts. Last error: "
        ++ lastError.getD ""), k, [])
  | r + 1, k, errs, lastError =>
      match resp k with
      | .err m =>
          let next := gclLoop resp r (k + 1) errs (some m)
          (next.1, next.2.1, errs :: next.2.2)
      | .ok text =>
          let generatedLetter := wrapText (cleanContent text) 80
          match validateContent (resp (k + 1)) with
          | .ok _ => (.ok generatedLetter, k + 2, [errs])
          | .error vmsg =>
              let errs2 := errs ++ [removeInvalidLabel vmsg]
              let last2 := if r = 0 then some vmsg else lastError
              let next := gclLoop resp r (k + 2) errs2 last2
              (next.1, next.2.1, errs :: next.2.2)

/-- `generateCoverLetter` (src/builder.js lines 515-663). -/
def generateCoverLetter (resp : Nat → Resp) (k : Nat) :
    Except String String × Nat × List (List String) :=
  gclLoop resp 3 k [] none

/-- `generateJobSummary` (src/builder.js lines 723-788): one service call,
cleanup and wrap, no validation; a call error is rethrown. -/
def generateJobSummary : Resp → Except String String
  | .err m => .error m
  | .ok text => .ok (wrapText (cleanContent text) 80)

/-! ## builder.js — main -/

/-- The output files `main` can write.  Folder/file naming is an external
collaborator (AI-suggested names plus the calendar date), so output paths
are modelled by the kind of document they hold. -/
inductive FileKind where
  | jobSummary
  | coverTxt
  | resumeMd
  | resumePdf
deriving DecidableEq

/-- `main` (src/builder.js lines 791-870) as a function of the service
response stream, returning the process exit code and the ordered list of
(path, content) writes.  Stream layout: index 0 is consumed by
`getSuggestedNames` (which catches its own errors and falls back to
timestamp names, so it never throws); index 1 by `generateJobSummary`;
the cover-letter loop starts at index 2; the resume loop starts at the
first index the cover-letter loop did not consume.  A cover-letter
failure hits the inner `catch` of Step 3 and calls `process.exit(1)`;
a summary or resume failure propagates to `main`'s `catch`, which also
exits 1.  On full success the PDF conversion of the resume Markdown is
written and the process exits 0. -/
def mainRun (resp : Nat → Resp) : Nat × List (FileKind × String) :=
  match generateJobSummary (resp 1) with
  | .error _ => (1, [])
  | .ok jobSummary =>
      match generateCoverLetter resp 2 with
      | (.error _, _, _) => (1, [(.jobSummary, jobSummary)])
      | (.ok coverLetter, k2, _) =>
          match generateTailoredResume resp k2 with
          | (.error _, _, _) => (1, [(.jobSummary, jobSummary), (.coverTxt, coverLetter)])
          | (.ok tailoredResume, _, _) =>
              (0, [(.jobSummary, jobSummary), (.coverTxt, coverLetter),
                   (.resumeMd, tailoredResume), (.resumePdf, tailoredResume)])

/-- A finite response script viewed as a stream; requests beyond the
script fail like a dropped connection. -/
def streamOf (l : List Resp) : Nat → Resp :=
  fun i => l.getD i (.err "no response")

/-! ## pdf-converter.js — data model

The pdfkit document is external; the converter's own logic is embedded
with explicit geometry (ℚ points) and each `doc.text(...)` call recorded
as a `Run` carrying the style state and options at the moment of the
call. -/

/-- The `align` values the converter passes to pdfkit. -/
inductive Align where
  | left
  | justify
  | center
deriving DecidableEq

/-- The options object of one `doc.text` call (only the fields the
converter ever sets). -/
structure TextOpts where
  paragraphGap : Option ℚ
  align : Option Align
  indent : Option ℚ
  continued : Option Bool
  link : Option String
  underline : Option Bool
  width : Option ℚ
deriving DecidableEq

/-- One recorded `doc.text` call: the text, the font/size/fill-color
state of the document at the call, the explicit x/y arguments when
given, and the options object. -/
structure Run where
  text : String
  font : String
  size : ℚ
  color : String
  x : Option ℚ
  y : Option ℚ
  opts : TextOpts
deriving DecidableEq

/-- Style table of the converter (src/lib/pdf-converter.js lines 28-36). -/
structure Style where
  font : String
  size : ℚ
  color : String
  spacing : ℚ

def h1Style : Style := ⟨"Helvetica-Bold", 24, "#2c3e50", 4⟩
def h2Style : Style := ⟨"Helvetica-Bold", 14, "#2980b9", 8⟩
def h2PreSpacing : ℚ := 10
def h3Style : Style := ⟨"Helvetica-Bold", 12, "#3498db", 4⟩
def normalStyle : Style := ⟨"Helvetica", 12, "#333333", 5⟩
def footerStyle : Style := ⟨"Helvetica", 10, "#666666", 0⟩
def bulletIndent : ℚ := 10
def linkColor : String := "#2c3e50"

/-- US-Letter page height in points (`doc.page.height`). -/
def pageHeightPt : ℚ := 792
/-- US-Letter page width in points (`doc.page.width`). -/
def pageWidthPt : ℚ := 612
/-- All four margins are 50pt (src/lib/pdf-converter.js lines 14-19). -/
def marginPt : ℚ := 50
/-- The fixed footer reservation subtracted from the printable height
(the literal `30` on lines 61 and 93). -/
def footerReservePt : ℚ := 30
/-- Content width `doc.page.width - margins.left - margins.right`. -/
def contentWidthPt : ℚ := pageWidthPt - marginPt - marginPt

/-- The pdfkit text-measurement primitives the converter consults.  They
belong to the external library, so they are abstract parameters:
`heightOfString text width`, `currentLineHeight` (the converter always
queries it while the body style is active, because styles are reset to
the body default after every line), and the vertical advance pdfkit
applies to `doc.y` when a text run is written. -/
structure PdfMeasure where
  heightOfString : String → ℚ → ℚ
  lineHeight : ℚ
  advance : Run → ℚ

/-- The converter-visible document state: the vertical cursor `doc.y`,
the number of buffered pages so far, and the recorded text runs. -/
structure RenderState where
  y : ℚ
  pageCount : Nat
  runs : List Run
deriving DecidableEq

/-- `doc.text` with the current style recorded: append the run and let
the library advance the cursor. -/
def writeRun (M : PdfMeasure) (st : RenderState) (r : Run) : RenderState :=
  { st with runs := st.runs ++ [r], y := st.y + M.advance r }

/-! ## pdf-converter.js — inline-span splitting

The regular expression
`(\[.*?\]\(.*?\)|\*\*.*?\*\*|https?:\/\/\S+)` is embedded as a
left-to-right scanner that, at each position, tries the three
alternatives in order with the same lazy/greedy backtracking the regex
engine performs, splitting the line at each match as JS
`String.prototype.split` with a capturing group does. -/

/-- Distance to the first `**` (the lazy `.*?` before the closing
delimiter of a bold span; `.` does not match a newline). -/
def findStars : List Char → Option Nat
  | '*' :: '*' :: _ => some 0
  | '\n' :: _ => none
  | _ :: rest => (findStars rest).map (· + 1)
  | [] => none

/-- Length of a `\*\*.*?\*\*` match at the head, if any. -/
def matchBoldLen : List Char → Option Nat
  | '*' :: '*' :: rest => (findStars rest).map (· + 4)
  | _ => none

/-- Distance to the first `)` (the lazy `.*?` before `\)`). -/
def closeScan : List Char → Option Nat
  | ')' :: _ => some 0
  | '\n' :: _ => none
  | _ :: rest => (closeScan rest).map (· + 1)
  | [] => none

/-- After the opening `[`, the number of characters consumed by
`.*?\]\(.*?\)`: the lazy scan extends past any `]` that is not followed
by `(`; once a `](` is reached, the inner lazy scan stops at the first
`)` (if no `)` follows anywhere, later candidates cannot match either,
so the whole alternative fails). -/
def linkScan : List Char → Option Nat
  | ']' :: '(' :: rest => (closeScan rest).map (· + 3)
  | '\n' :: _ => none
  | _ :: rest => (linkScan rest).map (· + 1)
  | [] => none

/-- Length of a `\[.*?\]\(.*?\)` match at the head, if any. -/
def matchLinkLen : List Char → Option Nat
  | '[' :: rest => (linkScan rest).map (· + 1)
  | _ => none

/-- Length of the greedy `\S+` run at the head (`none` when empty). -/
def nonWsRun : List Char → Nat
  | c :: rest => if wsChar c then 0 else nonWsRun rest + 1
  | [] => 0

/-- Length of a `https?:\/\/\S+` match at the head, if any. -/
def matchUrlLen (cs : List Char) : Option Nat :=
  if leadsWithL "https://".data cs then
    let n := nonWsRun (cs.drop 8)
    if n = 0 then none else some (8 + n)
  else if leadsWithL "http://".data cs then
    let n := nonWsRun (cs.drop 7)
    if n = 0 then none else some (7 + n)
  else none

/-- One alternation step of the split regex: alternatives are tried in
source order — link, bold, bare URL. -/
def tokMatch (cs : List Char) : Option Nat :=
  match matchLinkLen cs with
  | some n => some n
  | none =>
      match matchBoldLen cs with
      | some n => some n
      | none => matchUrlLen cs

/-- The splitting scan: plain text accumulates until an alternative
matches; each match flushes the pending plain part (possibly empty, as
JS `split` does) followed by the matched part.  Fuel is the input
length; every match consumes at least one character. -/
def splitScanF : Nat → List Char → List Char → List String
  | 0, acc, cs => [String.mk (acc.reverse ++ cs)]
  | _ + 1, acc, [] => [String.mk acc.reverse]
  | fuel + 1, acc, c :: rest =>
      match tokMatch (c :: rest) with
      | some n =>
          String.mk acc.reverse :: String.mk ((c :: rest).take n) ::
            splitScanF fuel [] ((c :: rest).drop n)
      | none => splitScanF fuel (c :: acc) rest

/-- `textToWrite.split(regex).filter(Boolean)`
(src/lib/pdf-converter.js lines 134-135). -/
def splitParts (s : String) : List String :=
  (splitScanF s.data.length [] s.data).filter (fun p => !(p == ""))

/-! ## pdf-converter.js — per-part classification -/

/-- A `](` occurrence somewhere in the list. -/
def containsBP : List Char → Bool
  | ']' :: '(' :: _ => true
  | _ :: rest => containsBP rest
  | [] => false

/-- A `\n` occurrence somewhere in the list. -/
def containsNl : List Char → Bool
  | '\n' :: _ => true
  | _ :: rest => containsNl rest
  | [] => false

/-- Anchored test `^\[.*?\]\(.*?\)$`: the whole part decomposes as
`[` text `](` url `)` with no newline. -/
def isLinkWholeB : List Char → Bool
  | '[' :: body =>
      match body.reverse with
      | ')' :: mid => containsBP mid.reverse && !containsNl body
      | _ => false
  | _ => false

/-- The lazy inner capture `\((.*?)\)`: text up to the first `)`. -/
def splitAtClose (acc : List Char) : List Char → Option String
  | ')' :: _ => some (String.mk acc.reverse)
  | '\n' :: _ => none
  | c :: rest => splitAtClose (c :: acc) rest
  | [] => none

/-- Scan for the `](` separator of the extraction regex
`\[(.*?)\]\((.*?)\)`, accumulating the link text lazily. -/
def linkBody (acc : List Char) : List Char → Option (String × String)
  | ']' :: '(' :: rest =>
      (splitAtClose [] rest).map (fun u => (String.mk acc.reverse, u))
  | '\n' :: _ => none
  | c :: rest => linkBody (c :: acc) rest
  | [] => none

/-- Leftmost match of `\[(.*?)\]\((.*?)\)` (the extraction on line 144). -/
def extractLink : List Char → Option (String × String)
  | '[' :: rest =>
      match linkBody [] rest with
      | some tu => some tu
      | none => extractLink rest
  | _ :: rest => extractLink rest
  | [] => none

/-- Anchored test `^https?:\/\/\S+$`: the greedy match must cover the
whole part. -/
def isUrlWholeB (cs : List Char) : Bool :=
  match matchUrlLen cs with
  | some n => n == cs.length
  | none => false

/-- `part.replace(/[.,;:!?]$/, '')`: strip one trailing punctuation
character (line 151). -/
def stripEndPunct (s : String) : String :=
  match s.data.reverse with
  | c :: rest =>
      if c == '.' || c == ',' || c == ';' || c == ':' || c == '!' || c == '?' then
        String.mk rest.reverse
      else s
  | [] => s

/-- Anchored test `^\*\*.*\*\*$`: starts and ends with `**`, total
length at least 4, no newline inside. -/
def isBoldWholeB (cs : List Char) : Bool :=
  decide (4 ≤ cs.length) && leadsWithL "**".data cs &&
    leadsWithL "**".data (cs.drop (cs.length - 2)) && !containsNl cs

/-- Map with the element index, used for the `continued` flag. -/
def mapWithIdx (f : Nat → α → β) : Nat → List α → List β
  | _, [] => []
  | i, a :: as => f i a :: mapWithIdx f (i + 1) as

/-- The text runs emitted for one plain/bullet line
(src/lib/pdf-converter.js lines 115-166): bullet lines get the marker
glyph, left alignment and a fixed indent; the line is split on the three
inline patterns; every part but the last is written with
`continued: true`; a link part is written in the link colour with the
`link`/`underline` options, a bold part in the bold font, everything
else in the body style. -/
def lineRuns (line : String) : List Run :=
  let isBullet := jsStartsWith line "- "
  let textToWrite := if isBullet then "- " ++ String.mk (line.data.drop 2) else line
  let parts := splitParts textToWrite
  let n := parts.length
  mapWithIdx
    (fun i part =>
      let base : TextOpts :=
        { paragraphGap := some normalStyle.spacing
          align := some (if isBullet then Align.left else Align.justify)
          indent := some (if isBullet then bulletIndent else 0)
          continued := some (decide (i < n - 1))
          link := none
          underline := none
          width := none }
      if isLinkWholeB part.data then
        match extractLink part.data with
        | some tu =>
            { text := tu.1, font := normalStyle.font, size := normalStyle.size,
              color := linkColor, x := none, y := none,
              opts := { base with link := some tu.2, underline := some false } }
        | none =>
            { text := part, font := normalStyle.font, size := normalStyle.size,
              color := normalStyle.color, x := none, y := none, opts := base }
      else if isUrlWholeB part.data then
        let url := stripEndPunct part
        { text := url, font := normalStyle.font, size := normalStyle.size,
          color := linkColor, x := none, y := none,
          opts := { base with link := some url, underline := some false } }
      else if isBoldWholeB part.data then
        { text := String.mk ((part.data.drop 2).take (part.data.length - 4)),
          font := h1Style.font, size := normalStyle.size,
          color := normalStyle.color, x := none, y := none, opts := base }
      else
        { text := part, font := normalStyle.font, size := normalStyle.size,
          color := normalStyle.color, x := none, y := none, opts := base })
    0 parts

/-! ## pdf-converter.js — line branches and pagination -/

/-- The run written for an h1 line (only `paragraphGap` is passed). -/
def h1Run (titleText : String) : Run :=
  { text := titleText, font := h1Style.font, size := h1Style.size,
    color := h1Style.color, x := none, y := none,
    opts := { paragraphGap := some h1Style.spacing, align := none, indent := none,
              continued := none, link := none, underline := none, width := none } }

/-- The run written for an h2 line. -/
def h2Run (headerText : String) : Run :=
  { text := headerText, font := h2Style.font, size := h2Style.size,
    color := h2Style.color, x := none, y := none,
    opts := { paragraphGap := some h2Style.spacing, align := none, indent := none,
              continued := some false, link := none, underline := none, width := none } }

/-- The run written for an h3 line. -/
def h3Run (headerText : String) : Run :=
  { text := headerText, font := h3Style.font, size := h3Style.size,
    color := h3Style.color, x := none, y := none,
    opts := { paragraphGap := some h3Style.spacing, align := none, indent := none,
              continued := some false, link := none, underline := none, width := none } }

/-- The h1 branch (lines 51-57): the title is written with no
page-break look-ahead. -/
def h1Branch (M : PdfMeasure) (st : RenderState) (titleText : String) : RenderState :=
  writeRun M st (h1Run titleText)

/-- The h2 branch (lines 58-89): measure the wrapped heading height at
the content width, reserve three line-heights of trailing content, force
a page break (cursor to the top margin) when the total would exceed
`page.height - margins.bottom - 30`, then insert the pre-heading gap
`moveDown(preSpacing / currentLineHeight)` — a net advance of
`preSpacing` — only when the cursor is below the top margin. -/
def h2Branch (M : PdfMeasure) (st : RenderState) (headerText : String) : RenderState :=
  let currentHeight := st.y
  let pageHeight := pageHeightPt - marginPt - footerReservePt
  let headerHeight := M.heightOfString headerText contentWidthPt
  let spaceNeeded := headerHeight + M.lineHeight * 3
  let st1 :=
    if currentHeight + spaceNeeded > pageHeight then
      { st with pageCount := st.pageCount + 1, y := marginPt }
    else st
  let st2 :=
    if st1.y > marginPt then
      { st1 with y := st1.y + (h2PreSpacing / M.lineHeight) * M.lineHeight }
    else st1
  writeRun M st2 (h2Run headerText)

/-- The h3 branch (lines 90-113): the same look-ahead as h2, with no
pre-heading gap. -/
def h3Branch (M : PdfMeasure) (st : RenderState) (headerText : String) : RenderState :=
  let currentHeight := st.y
  let pageHeight := pageHeightPt - marginPt - footerReservePt
  let headerHeight := M.heightOfString headerText contentWidthPt
  let spaceNeeded := headerHeight + M.lineHeight * 3
  let st1 :=
    if currentHeight + spaceNeeded > pageHeight then
      { st with pageCount := st.pageCount + 1, y := marginPt }
    else st
  writeRun M st1 (h3Run headerText)

/-- The plain/bullet branch (lines 115-166). -/
def textBranch (M : PdfMeasure) (st : RenderState) (line : String) : RenderState :=
  (lineRuns line).foldl (writeRun M) st

/-- One iteration of the `for (let line of lines)` loop (lines 47-173):
blank lines are skipped, then the line is classified by its leading
Markdown token. -/
def processLine (M : PdfMeasure) (st : RenderState) (line : String) : RenderState :=
  if jsTrim line == "" then st
  else if jsStartsWith line "# " then h1Branch M st (String.mk (line.data.drop 2))
  else if jsStartsWith line "## " then h2Branch M st (String.mk (line.data.drop 3))
  else if jsStartsWith line "### " then h3Branch M st (String.mk (line.data.drop 4))
  else textBranch M st line

/-- The content pass of `convertToPdf`: pdfkit opens the document on
page 1 with the cursor at the top margin; the Markdown is processed line
by line. -/
def convertToPdf (M : PdfMeasure) (markdownContent : String) : RenderState :=
  (splitOnCharAux '\n' [] markdownContent.data).foldl (processLine M)
    { y := marginPt, pageCount := 1, runs := [] }

/-! ## pdf-converter.js — footer stamping (second pass) -/

/-- The footer run written on buffered page `i` (0-based) of `count`
pages (lines 185-198): footer style, explicit position `x = 0`,
`y = page.height - oldBottomMargin / 2`, centered over the full page
width. -/
def footerRun (i count : Nat) (oldBottomMargin : ℚ) : Run :=
  { text := "Page " ++ toString (i + 1) ++ " of " ++ toString count,
    font := footerStyle.font, size := footerStyle.size, color := footerStyle.color,
    x := some 0, y := some (pageHeightPt - oldBottomMargin / 2),
    opts := { paragraphGap := none, align := some Align.center, indent := none,
              continued := none, link := none, underline := none,
              width := some pageWidthPt } }

/-- The `for (let i = 0; i < range.count; i++)` loop (lines 177-202):
for each buffered page the bottom margin is saved, zeroed for the write,
and restored afterwards; the loop threads the mutable margin value. -/
def stampLoop (count : Nat) : Nat → ℚ → List (List Run) → List (List Run) × ℚ
  | _, bottom, [] => ([], bottom)
  | i, bottom, page :: rest =>
      let oldBottomMargin := bottom
      let page2 := page ++ [footerRun i count oldBottomMargin]
      let next := stampLoop count (i + 1) oldBottomMargin rest
      (page2 :: next.1, next.2)

/-- The footer-stamping second pass over the already-paginated buffer
(lines 176-202), returning the stamped pages and the final bottom
margin. -/
def stampFooters (pages : List (List Run)) (bottomMargin : ℚ) :
    List (List Run) × ℚ :=
  stampLoop pages.length 0 bottomMargin pages

/-! ## Helper lemmas -/

/-- A validation response whose trimmed text starts with `VALID` makes
`validateContent` return `true`. -/
theorem validateContent_ok_of (v : String)
    (h : jsStartsWith (jsTrim v) "VALID" = true) :
    validateContent (Resp.ok v) = Except.ok true := by
  simp [validateContent, h]

/-- A validation response whose trimmed text does not start with `VALID`
makes `validateContent` throw the whole trimmed response. -/
theorem validateContent_error_of (v : String)
    (h : jsStartsWith (jsTrim v) "VALID" = false) :
    validateContent (Resp.ok v) = Except.error (jsTrim v) := by
  simp [validateContent, h]

/-- Resume-loop iteration, generation-call failure: `lastError` is
recorded, the accumulator is passed on unchanged, and this attempt's
prompt snapshot is the incoming accumulator. -/
theorem gtrLoop_gen_err (resp : Nat → Resp) (n k : Nat) (errs : List String)
    (l : Option String) (m : String) (h : resp k = Resp.err m) :
    gtrLoop resp (n + 1) k errs l =
      ((gtrLoop resp n (k + 1) errs (some m)).1,
       (gtrLoop resp n (k + 1) errs (some m)).2.1,
       errs :: (gtrLoop resp n (k + 1) errs (some m)).2.2) := by
  simp only [gtrLoop, h]

/-- Resume-loop iteration, valid verdict: the trimmed generation
response is returned immediately. -/
theorem gtrLoop_ok_valid (resp : Nat → Resp) (n k : Nat) (errs : List String)
    (l : Option String) (g v : String) (hg : resp k = Resp.ok g)
    (hv : resp (k + 1) = Resp.ok v)
    (hval : jsStartsWith (jsTrim v) "VALID" = true) :
    gtrLoop resp (n + 1) k errs l = (Except.ok (jsTrim g), k + 2, [errs]) := by
  simp only [gtrLoop, hg, hv, validateContent_ok_of v hval]

/-- Resume-loop iteration, validation failure: the thrown message with a
leading `INVALID:` label stripped is appended to the accumulator, and
only the final attempt records the message as `lastError`. -/
theorem gtrLoop_ok_invalid (resp : Nat → Resp) (n k : Nat) (errs : List String)
    (l : Option String) (g v : String) (hg : resp k = Resp.ok g)
    (hv : resp (k + 1) = Resp.ok v)
    (hval : jsStartsWith (jsTrim v) "VALID" = false) :
    gtrLoop resp (n + 1) k errs l =
      ((gtrLoop resp n (k + 2) (errs ++ [removeInvalidLabel (jsTrim v)])
          (if n = 0 then some (jsTrim v) else l)).1,
       (gtrLoop resp n (k + 2) (errs ++ [removeInvalidLabel (jsTrim v)])
          (if n = 0 then some (jsTrim v) else l)).2.1,
       errs :: (gtrLoop resp n (k + 2) (errs ++ [removeInvalidLabel (jsTrim v)])
          (if n = 0 then some (jsTrim v) else l)).2.2) := by
  simp only [gtrLoop, hg, hv, validateContent_error_of v hval]

/-- Cover-letter-loop iteration, valid verdict. -/
theorem gclLoop_ok_valid (resp : Nat → Resp) (n k : Nat) (errs : List String)
    (l : Option String) (g v : String) (hg : resp k = Resp.ok g)
    (hv : resp (k + 1) = Resp.ok v)
    (hval : jsStartsWith (jsTrim v) "VALID" = true) :
    gclLoop resp (n + 1) k errs l =
      (Except.ok (wrapText (cleanContent g) 80), k + 2, [errs]) := by
  simp only [gclLoop, hg, hv, validateContent_ok_of v hval]

/-- A successful resume loop returns the trim of a generation response
whose immediately following validation response was a Valid verdict. -/
theorem gtrLoop_ok_validated (resp : Nat → Resp) :
    ∀ n k errs l c, (gtrLoop resp n k errs l).1 = Except.ok c →
      ∃ j g v, k ≤ j ∧ resp j = Resp.ok g ∧ resp (j + 1) = Resp.ok v ∧
        jsStartsWith (jsTrim v) "VALID" = true ∧ c = jsTrim g := by
  intro n
  induction n with
  | zero =>
      intro k errs l c h
      simp [gtrLoop] at h
  | succ n ih =>
      intro k errs l c h
      simp only [gtrLoop] at h
      cases hk : resp k with
      | err m =>
          simp only [hk] at h
          obtain ⟨j, g, v, hkj, h1, h2, h3, h4⟩ := ih (k + 1) errs (some m) c h
          exact ⟨j, g, v, by omega, h1, h2, h3, h4⟩
      | ok text =>
          simp only [hk] at h
          cases hvc : validateContent (resp (k + 1)) with
          | ok b =>
              simp only [hvc] at h
              simp at h
              cases hr : resp (k + 1) with
              | err m => rw [hr] at hvc; simp [validateContent] at hvc
              | ok v =>
                  rw [hr] at hvc
                  by_cases hs : jsStartsWith (jsTrim v) "VALID" = true
                  · exact ⟨k, text, v, Nat.le_refl k, hk, hr, hs, h.symm⟩
                  · rw [validateContent_error_of v (by simpa using hs)] at hvc
                    cases hvc
          | error vmsg =>
              simp only [hvc] at h
              obtain ⟨j, g, v, hkj, h1, h2, h3, h4⟩ := ih (k + 2) _ _ c h
              exact ⟨j, g, v, by omega, h1, h2, h3, h4⟩

/-- A successful cover-letter loop returns the cleaned and wrapped text
of a generation response whose immediately following validation response
was a Valid verdict. -/
theorem gclLoop_ok_validated (resp : Nat → Resp) :
    ∀ n k errs l c, (gclLoop resp n k errs l).1 = Except.ok c →
      ∃ j g v, k ≤ j ∧ resp j = Resp.ok g ∧ resp (j + 1) = Resp.ok v ∧
        jsStartsWith (jsTrim v) "VALID" = true ∧
        c = wrapText (cleanContent g) 80 := by
  intro n
  induction n with
  | zero =>
      intro k errs l c h
      simp [gclLoop] at h
  | succ n ih =>
      intro k errs l c h
      simp only [gclLoop] at h
      cases hk : resp k with
      | err m =>
          simp only [hk] at h
          obtain ⟨j, g, v, hkj, h1, h2, h3, h4⟩ := ih (k + 1) errs (some m) c h
          exact ⟨j, g, v, by omega, h1, h2, h3, h4⟩
      | ok text =>
          simp only [hk] at h
          cases hvc : validateContent (resp (k + 1)) with
          | ok b =>
              simp only [hvc] at h
              simp at h
              cases hr : resp (k + 1) with
              | err m => rw [hr] at hvc; simp [validateContent] at hvc
              | ok v =>
                  rw [hr] at hvc
                  by_cases hs : jsStartsWith (jsTrim v) "VALID" = true
                  · exact ⟨k, text, v, Nat.le_refl k, hk, hr, hs, h.symm⟩
                  · rw [validateContent_error_of v (by simpa using hs)] at hvc
                    cases hvc
          | error vmsg =>
              simp only [hvc] at h
              obtain ⟨j, g, v, hkj, h1, h2, h3, h4⟩ := ih (k + 2) _ _ c h
              exact ⟨j, g, v, by omega, h1, h2, h3, h4⟩

/-- Footer-stamping loop: the margin is restored, page count is
preserved, and page `i` of the output is page `i` of the input with one
footer run appended. -/
theorem stampLoop_spec (count : Nat) (b : ℚ) :
    ∀ (ps : List (List Run)) (j : Nat),
      (stampLoop count j b ps).2 = b ∧
      (stampLoop count j b ps).1.length = ps.length ∧
      ∀ i : Nat, (stampLoop count j b ps).1[i]? =
        (ps[i]?).map (fun p => p ++ [footerRun (j + i) count b]) := by
  intro ps
  induction ps with
  | nil =>
      intro j
      refine ⟨rfl, rfl, ?_⟩
      intro i
      simp [stampLoop]
  | cons p rest ih =>
      intro j
      refine ⟨?_, ?_, ?_⟩
      · simpa [stampLoop] using (ih (j + 1)).1
      · simpa [stampLoop] using (ih (j + 1)).2.1
      · intro i
        cases i with
        | zero => simp [stampLoop]
        | succ i =>
            have hrec := (ih (j + 1)).2.2 i
            have hidx : j + (i + 1) = (j + 1) + i := by omega
            simp only [stampLoop, List.getElem?_cons_succ, hidx]
            exact hrec

/-! ## Claim theorems -/

/-- C1: For every run and every sequence of service responses, resume or
cover-letter content is written to its output path only if the Validator
returned a Valid verdict for that exact content; with no Valid verdict
before the attempt budget is exhausted, no resume or cover-letter file
is written.  Every non-job-summary write of `mainRun` carries exactly
the post-processed text of a generation response whose immediately
following validation response was a Valid verdict — the string validated
is the string written. -/
theorem mainRun_writes_only_validated (resp : Nat → Resp) (k : FileKind)
    (c : String) (hk : k ≠ FileKind.jobSummary)
    (hmem : (k, c) ∈ (mainRun resp).2) :
    ∃ j g v, resp j = Resp.ok g ∧ resp (j + 1) = Resp.ok v ∧
      jsStartsWith (jsTrim v) "VALID" = true ∧
      ((k = FileKind.coverTxt ∧ c = wrapText (cleanContent g) 80) ∨
       ((k = FileKind.resumeMd ∨ k = FileKind.resumePdf) ∧ c = jsTrim g)) := by
  unfold mainRun at hmem
  rcases hjs : generateJobSummary (resp 1) with e | s
  · rw [hjs] at hmem
    simp at hmem
  · rw [hjs] at hmem
    rcases hgc : generateCoverLetter resp 2 with ⟨cres, k2, clog⟩
    rw [hgc] at hmem
    rcases cres with ce | L
    · simp at hmem
      exact absurd hmem.1 hk
    · dsimp only at hmem
      rcases hres : generateTailoredResume resp k2 with ⟨rres, k3, rlog⟩
      rw [hres] at hmem
      have hLok : (gclLoop resp 3 2 [] none).1 = Except.ok L := by
        have : generateCoverLetter resp 2 = (Except.ok L, k2, clog) := hgc
        calc (gclLoop resp 3 2 [] none).1 = (generateCoverLetter resp 2).1 := rfl
          _ = Except.ok L := by rw [this]
      rcases rres with re | R
      · simp at hmem
        rcases hmem with ⟨hkk, _⟩ | ⟨hkk, hc⟩
        · exact absurd hkk hk
        · obtain ⟨j, g, v, _, h1, h2, h3, h4⟩ :=
            gclLoop_ok_validated resp 3 2 [] none L hLok
          exact ⟨j, g, v, h1, h2, h3, Or.inl ⟨hkk, by rw [hc, h4]⟩⟩
      · have hRok : (gtrLoop resp 3 k2 [] none).1 = Except.ok R := by
          have : generateTailoredResume resp k2 = (Except.ok R, k3, rlog) := hres
          calc (gtrLoop resp 3 k2 [] none).1 = (generateTailoredResume resp k2).1 := rfl
            _ = Except.ok R := by rw [this]
        simp at hmem
        rcases hmem with ⟨hkk, _⟩ | ⟨hkk, hc⟩ | ⟨hkk, hc⟩ | ⟨hkk, hc⟩
        · exact absurd hkk hk
        · obtain ⟨j, g, v, _, h1, h2, h3, h4⟩ :=
            gclLoop_ok_validated resp 3 2 [] none L hLok
          exact ⟨j, g, v, h1, h2, h3, Or.inl ⟨hkk, by rw [hc, h4]⟩⟩
        · obtain ⟨j, g, v, _, h1, h2, h3, h4⟩ :=
            gtrLoop_ok_validated resp 3 k2 [] none R hRok
          exact ⟨j, g, v, h1, h2, h3, Or.inr ⟨Or.inl hkk, by rw [hc, h4]⟩⟩
        · obtain ⟨j, g, v, _, h1, h2, h3, h4⟩ :=
            gtrLoop_ok_validated resp 3 k2 [] none R hRok
          exact ⟨j, g, v, h1, h2, h3, Or.inr ⟨Or.inr hkk, by rw [hc, h4]⟩⟩

/-- Service script for the C1 witness: every document validates on the
first attempt. -/
def respAllOk : Nat → Resp :=
  streamOf [Resp.ok "names", Resp.ok "SUM", Resp.ok "LETTER", Resp.ok "VALID",
    Resp.ok "RESUME", Resp.ok "VALID ok"]

/-- Witness for C1 at a concrete run: the resume Markdown write is
backed by a Valid verdict. -/
theorem mainRun_writes_only_validated_witness :
    ∃ j g v, respAllOk j = Resp.ok g ∧ respAllOk (j + 1) = Resp.ok v ∧
      jsStartsWith (jsTrim v) "VALID" = true ∧
      ((FileKind.resumeMd = FileKind.coverTxt ∧
          "RESUME" = wrapText (cleanContent g) 80) ∨
       ((FileKind.resumeMd = FileKind.resumeMd ∨
           FileKind.resumeMd = FileKind.resumePdf) ∧ "RESUME" = jsTrim g)) :=
  mainRun_writes_only_validated respAllOk FileKind.resumeMd "RESUME"
    (by decide) (by decide)

/-- C2: when all three attempts for the resume end with an Invalid
verdict, the generation function throws a terminal error that names the
last validation message, returns no content from the final failed
attempt (the result is the error, not an `ok`), and the whole run exits
with code 1, never writing a resume file.  The stream is laid out as
`main` consumes it: index 0 naming, index 1 summary, indices 2-3 a
cover letter that validates, indices 4-9 the three failing resume
attempts. -/
theorem resume_three_invalid_terminal (resp : Nat → Resp)
    (s l0 v0 g1 v1 g2 v2 g3 v3 : String)
    (hs : resp 1 = Resp.ok s)
    (hl0 : resp 2 = Resp.ok l0) (hv0 : resp 3 = Resp.ok v0)
    (hval0 : jsStartsWith (jsTrim v0) "VALID" = true)
    (hg1 : resp 4 = Resp.ok g1) (hv1 : resp 5 = Resp.ok v1)
    (hinv1 : jsStartsWith (jsTrim v1) "VALID" = false)
    (hg2 : resp 6 = Resp.ok g2) (hv2 : resp 7 = Resp.ok v2)
    (hinv2 : jsStartsWith (jsTrim v2) "VALID" = false)
    (hg3 : resp 8 = Resp.ok g3) (hv3 : resp 9 = Resp.ok v3)
    (hinv3 : jsStartsWith (jsTrim v3) "VALID" = false) :
    generateTailoredResume resp 4 =
      (Except.error ("Failed to generate valid resume after 3 attempts. Last error: "
          ++ jsTrim v3), 10,
       [[], [removeInvalidLabel (jsTrim v1)],
        [removeInvalidLabel (jsTrim v1), removeInvalidLabel (jsTrim v2)]]) ∧
    mainRun resp = (1, [(FileKind.jobSummary, wrapText (cleanContent s) 80),
                       (FileKind.coverTxt, wrapText (cleanContent l0) 80)]) := by
  have h3 : gtrLoop resp 1 8 [removeInvalidLabel (jsTrim v1),
      removeInvalidLabel (jsTrim v2)] none =
      (Except.error ("Failed to generate valid resume after 3 attempts. Last error: "
        ++ jsTrim v3), 10,
       [[removeInvalidLabel (jsTrim v1), removeInvalidLabel (jsTrim v2)]]) := by
    rw [gtrLoop_ok_invalid resp 0 8 _ none g3 v3 hg3 hv3 hinv3]
    simp [gtrLoop]
  have h2 : gtrLoop resp 2 6 [removeInvalidLabel (jsTrim v1)] none =
      (Except.error ("Failed to generate valid resume after 3 attempts. Last error: "
        ++ jsTrim v3), 10,
       [[removeInvalidLabel (jsTrim v1)],
        [removeInvalidLabel (jsTrim v1), removeInvalidLabel (jsTrim v2)]]) := by
    rw [gtrLoop_ok_invalid resp 1 6 _ none g2 v2 hg2 hv2 hinv2]
    simp [h3]
  have h1 : generateTailoredResume resp 4 =
      (Except.error ("Failed to generate valid resume after 3 attempts. Last error: "
        ++ jsTrim v3), 10,
       [[], [removeInvalidLabel (jsTrim v1)],
        [removeInvalidLabel (jsTrim v1), removeInvalidLabel (jsTrim v2)]]) := by
    show gtrLoop resp 3 4 [] none = _
    rw [gtrLoop_ok_invalid resp 2 4 [] none g1 v1 hg1 hv1 hinv1]
    simp [h2]
  refine ⟨h1, ?_⟩
  have hcover : generateCoverLetter resp 2 =
      (Except.ok (wrapText (cleanContent l0) 80), 4, [[]]) :=
    gclLoop_ok_valid resp 2 2 [] none l0 v0 hl0 hv0 hval0
  unfold mainRun
  rw [hs]
  dsimp only [generateJobSummary]
  rw [hcover]
  dsimp only
  rw [h1]

/-- Service script for the C2 witness. -/
def respC2 : Nat → Resp :=
  streamOf [Resp.ok "names", Resp.ok "S", Resp.ok "L", Resp.ok "VALID",
    Resp.ok "g1", Resp.ok "INVALID: r1", Resp.ok "g2", Resp.ok "INVALID: r2",
    Resp.ok "g3", Resp.ok "INVALID: r3"]

/-- Witness for C2 at a concrete run with three Invalid resume verdicts. -/
theorem resume_three_invalid_terminal_witness :
    generateTailoredResume respC2 4 =
      (Except.error ("Failed to generate valid resume after 3 attempts. Last error: "
          ++ jsTrim "INVALID: r3"), 10,
       [[], [removeInvalidLabel (jsTrim "INVALID: r1")],
        [removeInvalidLabel (jsTrim "INVALID: r1"), removeInvalidLabel (jsTrim "INVALID: r2")]]) ∧
    mainRun respC2 = (1, [(FileKind.jobSummary, wrapText (cleanContent "S") 80),
                         (FileKind.coverTxt, wrapText (cleanContent "L") 80)]) :=
  resume_three_invalid_terminal respC2 "S" "L" "VALID" "g1" "INVALID: r1"
    "g2" "INVALID: r2" "g3" "INVALID: r3" rfl rfl rfl (by decide)
    rfl rfl (by decide) rfl rfl (by decide) rfl rfl (by decide)

/-- Counterexample for C3: a validator response with a leading token
other than `VALID`/`INVALID:` feeds its own raw text into the retry
accumulator, not the generic string `validator protocol violation`
claimed by the spec — attempt 2's prompt errors are
`["GARBAGE protocol"]`. -/
theorem validator_protocol_text_cx :
    (gtrLoop (streamOf [Resp.ok "G1", Resp.ok "GARBAGE protocol",
        Resp.ok "G2", Resp.ok "VALID"]) 3 0 [] none).2.2 =
      [[], ["GARBAGE protocol"]] ∧
    ("GARBAGE protocol" : String) ≠ "validator protocol violation" :=
  ⟨rfl, by decide⟩

/-- C3 as amended: the Validator distinguishes only two cases on the
trimmed response — a `VALID` leading token yields a Valid verdict and
ends the loop with the trimmed generation text; any other response,
whether it starts with `INVALID:` or any other token, is thrown as an
error carrying the whole trimmed response text, and the retry
accumulator receives that text with a leading `INVALID:` label and
following whitespace stripped.  There is no distinct protocol-error
case and no generic `validator protocol violation` string. -/
theorem validator_two_case_parse (resp : Nat → Resp) (n k : Nat)
    (errs : List String) (l : Option String) (g v : String)
    (hg : resp k = Resp.ok g) (hv : resp (k + 1) = Resp.ok v) :
    (jsStartsWith (jsTrim v) "VALID" = true →
      validateContent (Resp.ok v) = Except.ok true ∧
      gtrLoop resp (n + 1) k errs l = (Except.ok (jsTrim g), k + 2, [errs])) ∧
    (jsStartsWith (jsTrim v) "VALID" = false →
      validateContent (Resp.ok v) = Except.error (jsTrim v) ∧
      (gtrLoop resp (n + 1) k errs l).2.2 =
        errs :: (gtrLoop resp n (k + 2) (errs ++ [removeInvalidLabel (jsTrim v)])
          (if n = 0 then some (jsTrim v) else l)).2.2 ∧
      (gtrLoop resp (n + 1) k errs l).1 =
        (gtrLoop resp n (k + 2) (errs ++ [removeInvalidLabel (jsTrim v)])
          (if n = 0 then some (jsTrim v) else l)).1) := by
  constructor
  · intro hval
    exact ⟨validateContent_ok_of v hval,
      gtrLoop_ok_valid resp n k errs l g v hg hv hval⟩
  · intro hval
    refine ⟨validateContent_error_of v hval, ?_, ?_⟩
    · rw [gtrLoop_ok_invalid resp n k errs l g v hg hv hval]
    · rw [gtrLoop_ok_invalid resp n k errs l g v hg hv hval]

/-- Witness for the amended C3: the protocol-violating response
`GARBAGE protocol` is thrown verbatim. -/
theorem validator_two_case_parse_witness :
    validateContent (Resp.ok "GARBAGE protocol") =
      Except.error "GARBAGE protocol" :=
  (((validator_two_case_parse
      (streamOf [Resp.ok "G1", Resp.ok "GARBAGE protocol"]) 2 0 [] none
      "G1" "GARBAGE protocol" rfl rfl).2) (by decide)).1

/-- C4: `validateContent` reports success exactly when the trimmed
service response starts with the five characters `VALID`; every other
response — including the `INVALID:` form — throws an error whose message
is the whole (trimmed) response text. -/
theorem validateContent_five_char_check (s : String) :
    (validateContent (Resp.ok s) = Except.ok true ↔
      jsStartsWith (jsTrim s) "VALID" = true) ∧
    (jsStartsWith (jsTrim s) "VALID" = false →
      validateContent (Resp.ok s) = Except.error (jsTrim s)) := by
  constructor
  · constructor
    · intro h
      by_cases hs : jsStartsWith (jsTrim s) "VALID" = true
      · exact hs
      · rw [validateContent_error_of s (by simpa using hs)] at h
        cases h
    · intro h
      exact validateContent_ok_of s h
  · intro h
    exact validateContent_error_of s h

/-- Witness for C4: a response beginning `VALIDATION FAILED` is accepted
as a Valid verdict, and an `INVALID:`-prefixed response is thrown with
its entire text. -/
theorem validateContent_five_char_check_witness :
    validateContent (Resp.ok "VALIDATION FAILED") = Except.ok true ∧
    validateContent (Resp.ok "INVALID: fabricated skill") =
      Except.error "INVALID: fabricated skill" :=
  ⟨(validateContent_five_char_check "VALIDATION FAILED").1.mpr (by decide),
   (validateContent_five_char_check "INVALID: fabricated skill").2 (by decide)⟩

/-- Counterexample for C5: an attempt that fails in the generation call
itself (a client/service error before validation) does not append its
reason to the retry accumulator — after attempt 1 fails with `boom`,
attempt 2's prompt enumerates zero prior failure reasons. -/
theorem gen_error_not_accumulated_cx :
    gtrLoop (streamOf [Resp.err "boom", Resp.ok "r2", Resp.ok "VALID"])
        3 0 [] none = (Except.ok "r2", 3, [[], []]) ∧
    streamOf [Resp.err "boom", Resp.ok "r2", Resp.ok "VALID"] 0 =
      Resp.err "boom" :=
  ⟨rfl, rfl⟩

/-- C5 as amended: only failures surfacing through the validation step
append to the retry accumulator (the thrown message with any leading
`INVALID:` label stripped); a generation-call client/service error
records `lastError` and retries with the accumulator unchanged.  The
accumulator starts empty for each document type — resume and
cover-letter generation each start their own loop with `[]` — so it is
never shared between them. -/
theorem accumulator_validation_failures_only (resp : Nat → Resp)
    (n k : Nat) (errs : List String) (l : Option String) (m g v : String) :
    (resp k = Resp.err m →
      (gtrLoop resp (n + 1) k errs l).2.2 =
        errs :: (gtrLoop resp n (k + 1) errs (some m)).2.2 ∧
      (gtrLoop resp (n + 1) k errs l).1 =
        (gtrLoop resp n (k + 1) errs (some m)).1) ∧
    (resp k = Resp.ok g → resp (k + 1) = Resp.ok v →
      jsStartsWith (jsTrim v) "VALID" = false →
      (gtrLoop resp (n + 1) k errs l).2.2 =
        errs :: (gtrLoop resp n (k + 2) (errs ++ [removeInvalidLabel (jsTrim v)])
          (if n = 0 then some (jsTrim v) else l)).2.2) ∧
    generateTailoredResume resp k = gtrLoop resp 3 k [] none ∧
    generateCoverLetter resp k = gclLoop resp 3 k [] none := by
  refine ⟨?_, ?_, rfl, rfl⟩
  · intro h
    rw [gtrLoop_gen_err resp n k errs l m h]
    exact ⟨rfl, rfl⟩
  · intro hg hv hval
    rw [gtrLoop_ok_invalid resp n k errs l g v hg hv hval]

/-- Witness for the amended C5 at a concrete run: attempt 1's
generation-call failure leaves the accumulator snapshot of attempt 2
empty. -/
theorem accumulator_validation_failures_only_witness :
    (gtrLoop (streamOf [Resp.err "boom", Resp.ok "r2", Resp.ok "VALID"])
        3 0 [] none).2.2 =
      [] :: (gtrLoop (streamOf [Resp.err "boom", Resp.ok "r2", Resp.ok "VALID"])
        2 1 [] (some "boom")).2.2 :=
  ((accumulator_validation_failures_only
      (streamOf [Resp.err "boom", Resp.ok "r2", Resp.ok "VALID"])
      2 0 [] none "boom" "g" "v").1 rfl).1

/-- Service script in which the cover letter exhausts its attempt budget
while the resume responses that follow would validate. -/
def respCoverFails : Nat → Resp :=
  streamOf [Resp.ok "names", Resp.ok "SUMMARY",
    Resp.ok "L1", Resp.ok "INVALID: a", Resp.ok "L2", Resp.ok "INVALID: b",
    Resp.ok "L3", Resp.ok "INVALID: c", Resp.ok "RESUME", Resp.ok "VALID"]

/-- Counterexample for C6: a terminal cover-letter failure DOES abort
resume generation — `main` exits 1 having written only the job summary,
even though the very next responses would have produced a valid resume
(`generateTailoredResume` succeeds when started at index 8). -/
theorem cover_failure_aborts_resume_cx :
    mainRun respCoverFails = (1, [(FileKind.jobSummary, "SUMMARY")]) ∧
    (generateTailoredResume respCoverFails 8).1 = Except.ok "RESUME" :=
  ⟨rfl, rfl⟩

/-- C6 as amended: sibling independence holds in one direction only,
and only by ordering.  When cover-letter generation fails terminally,
`main`'s catch calls `process.exit(1)` before resume generation starts,
so no resume is generated; when resume generation fails terminally, the
cover letter has already been generated and written, so its output
survives. -/
theorem cover_failure_exits_before_resume (resp : Nat → Resp) (s e : String)
    (hs : generateJobSummary (resp 1) = Except.ok s) :
    ((generateCoverLetter resp 2).1 = Except.error e →
      mainRun resp = (1, [(FileKind.jobSummary, s)])) ∧
    (∀ L k2 log er, generateCoverLetter resp 2 = (Except.ok L, k2, log) →
      (generateTailoredResume resp k2).1 = Except.error er →
      mainRun resp = (1, [(FileKind.jobSummary, s), (FileKind.coverTxt, L)])) := by
  constructor
  · intro hcl
    unfold mainRun
    rw [hs]
    rcases hgc : generateCoverLetter resp 2 with ⟨cres, k2, clog⟩
    rw [hgc] at hcl
    dsimp only at hcl
    rw [hcl]
  · intro L k2 log er hgc hres
    unfold mainRun
    rw [hs, hgc]
    dsimp only
    rcases hr : generateTailoredResume resp k2 with ⟨rres, k3, rlog⟩
    rw [hr] at hres
    dsimp only at hres
    rw [hres]

/-- Witness for the amended C6 at a concrete run: the failed cover
letter stops the run with exit code 1 and only the job summary written. -/
theorem cover_failure_exits_before_resume_witness :
    mainRun respCoverFails = (1, [(FileKind.jobSummary, "SUMMARY")]) :=
  (cover_failure_exits_before_resume respCoverFails "SUMMARY"
      ("Failed to generate valid cover letter after 3 attempts. Last error: "
        ++ "INVALID: c") rfl).1 rfl

/-- C7: for an h2 or h3 heading line, a page break is forced (the page
count grows by one and the cursor restarts at the top margin) exactly
when the current cursor plus the heading's wrapped height at the content
width plus a three-line-height allowance exceeds the page height minus
the bottom margin minus the fixed 30pt footer reservation; an h2 heading
additionally advances by the fixed pre-heading gap only when the cursor
sits below the top margin (so never right after the forced break); an h3
heading never inserts the gap, and an h1 heading performs no look-ahead
at all. -/
theorem heading_break_lookahead (M : PdfMeasure) (st : RenderState) (t : String) :
    ((h2Branch M st t).pageCount = st.pageCount +
      (if st.y + (M.heightOfString t contentWidthPt + M.lineHeight * 3) >
          pageHeightPt - marginPt - footerReservePt then 1 else 0)) ∧
    ((h3Branch M st t).pageCount = st.pageCount +
      (if st.y + (M.heightOfString t contentWidthPt + M.lineHeight * 3) >
          pageHeightPt - marginPt - footerReservePt then 1 else 0)) ∧
    ((h1Branch M st t).pageCount = st.pageCount) ∧
    ((h2Branch M st t).y =
      (if st.y + (M.heightOfString t contentWidthPt + M.lineHeight * 3) >
          pageHeightPt - marginPt - footerReservePt then marginPt
       else if st.y > marginPt then
          st.y + (h2PreSpacing / M.lineHeight) * M.lineHeight
       else st.y) + M.advance (h2Run t)) ∧
    ((h3Branch M st t).y =
      (if st.y + (M.heightOfString t contentWidthPt + M.lineHeight * 3) >
          pageHeightPt - marginPt - footerReservePt then marginPt
       else st.y) + M.advance (h3Run t)) := by
  refine ⟨?_, ?_, rfl, ?_, ?_⟩
  · unfold h2Branch writeRun
    dsimp only
    split_ifs <;> simp
  · unfold h3Branch writeRun
    dsimp only
    split_ifs <;> simp
  · unfold h2Branch writeRun
    dsimp only
    split_ifs with hb hg hg
    · dsimp only at hg
      exact absurd hg (lt_irrefl marginPt)
    · rfl
    · rfl
    · rfl
  · unfold h3Branch writeRun
    dsimp only
    split_ifs <;> rfl

/-- C8: footer stamping is a second pass over the buffered pages: the
stamped document has the same page count, page `i` (0-based) is the
original page with exactly one appended footer run whose text is
`Page (i+1) of N` for `N` the final page count, written in the footer
style at `x = 0` over the full page width with centre alignment, at
`y = pageHeight - bottomMargin / 2` — inside the bottom margin band —
and the bottom margin is restored to its original value afterwards. -/
theorem stamp_footers_page_numbers (pages : List (List Run)) (i : Nat) :
    (stampFooters pages marginPt).1.length = pages.length ∧
    (stampFooters pages marginPt).1[i]? =
      (pages[i]?).map (fun p => p ++ [footerRun i pages.length marginPt]) ∧
    (stampFooters pages marginPt).2 = marginPt ∧
    (footerRun i pages.length marginPt).text =
      "Page " ++ toString (i + 1) ++ " of " ++ toString pages.length ∧
    (footerRun i pages.length marginPt).y =
      some (pageHeightPt - marginPt / 2) ∧
    (footerRun i pages.length marginPt).x = some 0 ∧
    (footerRun i pages.length marginPt).opts.align = some Align.center ∧
    (footerRun i pages.length marginPt).opts.width = some pageWidthPt ∧
    (footerRun i pages.length marginPt).font = footerStyle.font ∧
    pageHeightPt - marginPt ≤ pageHeightPt - marginPt / 2 ∧
    pageHeightPt - marginPt / 2 ≤ pageHeightPt := by
  obtain ⟨hm, hl, hi⟩ := stampLoop_spec pages.length marginPt pages 0
  refine ⟨hl, ?_, hm, rfl, rfl, rfl, rfl, rfl, rfl, ?_, ?_⟩
  · have := hi i
    simpa using this
  · rw [pageHeightPt, marginPt]
    norm_num
  · rw [pageHeightPt, marginPt]
    norm_num

/-- C9: the line `- **Bold** item [link](http://x.test)` is rendered as
one flowing bulleted paragraph: a plain run for the bullet marker text,
a bold run `Bold`, a plain run ` item `, and a link run `link` targeting
`http://x.test`, in this order, all left-aligned with the bullet indent,
with the `continued` flag set on every run except the last, so no
paragraph break occurs inside the line. -/
theorem bullet_bold_link_line_runs :
    lineRuns "- **Bold** item [link](http://x.test)" =
      [⟨"- ", "Helvetica", 12, "#333333", none, none,
          ⟨some 5, some Align.left, some 10, some true, none, none, none⟩⟩,
       ⟨"Bold", "Helvetica-Bold", 12, "#333333", none, none,
          ⟨some 5, some Align.left, some 10, some true, none, none, none⟩⟩,
       ⟨" item ", "Helvetica", 12, "#333333", none, none,
          ⟨some 5, some Align.left, some 10, some true, none, none, none⟩⟩,
       ⟨"link", "Helvetica", 12, "#2c3e50", none, none,
          ⟨some 5, some Align.left, some 10, some false, some "http://x.test",
            some false, none⟩⟩] := by
  rfl

/-- Counterexample for C10: a resume generation response is NOT stripped
of code-fence markers before validation and output — a fenced response
that the validator accepts is returned with its fences intact, although
the cleanup function would have removed them. -/
theorem resume_not_stripped_cx :
    (generateTailoredResume
        (streamOf [Resp.ok "```markdown XYZ```", Resp.ok "VALID"]) 0).1 =
      Except.ok "```markdown XYZ```" ∧
    cleanContent "```markdown XYZ```" = "XYZ" ∧
    ("```markdown XYZ```" : String) ≠ cleanContent "```markdown XYZ```" :=
  ⟨rfl, rfl, by decide⟩

/-- C10 as amended: only cover-letter and job-summary responses are
stripped of code-fence markers and comment-like lines (and wrapped at 80
columns); resume responses are only whitespace-trimmed before being
validated and written. -/
theorem strip_only_cover_and_summary (resp : Nat → Resp) (k : Nat)
    (g v t : String) (hg : resp k = Resp.ok g) (hv : resp (k + 1) = Resp.ok v)
    (hval : jsStartsWith (jsTrim v) "VALID" = true) :
    (generateTailoredResume resp k).1 = Except.ok (jsTrim g) ∧
    (generateCoverLetter resp k).1 =
      Except.ok (wrapText (cleanContent g) 80) ∧
    generateJobSummary (Resp.ok t) =
      Except.ok (wrapText (cleanContent t) 80) := by
  refine ⟨?_, ?_, rfl⟩
  · show (gtrLoop resp 3 k [] none).1 = _
    rw [gtrLoop_ok_valid resp 2 k [] none g v hg hv hval]
  · show (gclLoop resp 3 k [] none).1 = _
    rw [gclLoop_ok_valid resp 2 k [] none g v hg hv hval]

/-- Witness for the amended C10: a fenced response reaches the resume
output with fences intact while the cover letter built from the same
text is stripped. -/
theorem strip_only_cover_and_summary_witness :
    (generateTailoredResume
        (streamOf [Resp.ok "```markdown XYZ```", Resp.ok "VALID"]) 0).1 =
      Except.ok (jsTrim "```markdown XYZ```") ∧
    (generateCoverLetter
        (streamOf [Resp.ok "```markdown XYZ```", Resp.ok "VALID"]) 0).1 =
      Except.ok (wrapText (cleanContent "```markdown XYZ```") 80) ∧
    generateJobSummary (Resp.ok "```markdown XYZ```") =
      Except.ok (wrapText (cleanContent "```markdown XYZ```") 80) :=
  strip_only_cover_and_summary
    (streamOf [Resp.ok "```markdown XYZ```", Resp.ok "VALID"]) 0
    "```markdown XYZ```" "VALID" "```markdown XYZ```" rfl rfl (by decide)
